import Mathlib

/-!
Verification of the Lorenz-LSTM notebook pipeline.

Shallow embedding of the notebook `LorenzPred.ipynb`: the Lorenz vector
field, the simulation configuration handed to the external ODE solver, the
dataset builder (`data[:-1]` paired with `data[1:]`), the fixed-seed
train/test split, and the shape-level behaviour of the two forecast models
(a Dense(3) baseline and an LSTM(50)+Dense(3) network).  Numeric values
are modelled as exact rationals.
-/

namespace LorenzPred

/-! ## Lorenz vector field (notebook cell: `sigma, beta, rho = 10, 2.667, 28`) -/

/-- Global parameter `sigma = 10` from the notebook. -/
def sigma : ℚ := 10

/-- Global parameter `beta = 2.667` from the notebook (a decimal literal,
not the exact rational 8/3). -/
def beta : ℚ := 2.667

/-- Global parameter `rho = 28` from the notebook. -/
def rho : ℚ := 28

/-- The Lorenz vector field with the three coefficients passed explicitly:
`lorenz` unpacks `x, y, z = state` and returns `[dxdt, dydt, dzdt]`. -/
def lorenzWith (s b r : ℚ) (t : ℚ) (state : ℚ × ℚ × ℚ) : List ℚ :=
  let x := state.1
  let y := state.2.1
  let z := state.2.2
  let dxdt := s * (y - x)
  let dydt := x * (r - z) - y
  let dzdt := x * y - b * z
  [dxdt, dydt, dzdt]

/-- Function `lorenz(t, state)` exactly as in the notebook: it reads the global
parameters `sigma`, `beta`, `rho` and ignores its time argument. -/
def lorenz (t : ℚ) (state : ℚ × ℚ × ℚ) : List ℚ :=
  lorenzWith sigma beta rho t state

/-! ## Simulation configuration handed to `solve_ivp` -/

/-- Notebook value `initial_state = [0, 1, 1.05]`. -/
def initial_state : List ℚ := [0, 1, 1.05]

/-- Notebook value `t_span = [0, 100]`. -/
def t_span : List ℚ := [0, 100]

/-- Embedding of `np.linspace(a, b, n)`: `n` evenly spaced points from `a` to `b`
inclusive, point `i` being `a + (b - a)·i/(n-1)`. -/
def linspace (a b : ℚ) (n : ℕ) : List ℚ :=
  (List.range n).map fun (i : ℕ) => a + (b - a) * (i : ℚ) / ((n : ℚ) - 1)

/-- Notebook value `t_eval = np.linspace(*t_span, 1000)`. -/
def t_eval : List ℚ := linspace 0 100 1000

/-! ## Dataset builder: `train_test_split(data[:-1], data[1:], test_size=0.2, random_state=42)` -/

/-- Pair each trajectory sample with its successor: the supervised
examples are `data[:-1]` zipped with `data[1:]`. -/
def build_examples {α : Type} (data : List α) : List (α × α) :=
  data.dropLast.zip data.tail

/-- Modelled from the spec: the fixed-seed pseudo-random key stream behind
the split's shuffle (numpy's generator itself is an external collaborator);
a linear congruential mix of the seed and the index. -/
def lcg (seed i : ℕ) : ℕ :=
  (1103515245 * (seed * 9973 + i + 1) + 12345) % 2 ^ 31

/-- Ordering of indices by their pseudo-random key, ties broken by the
index itself (a total order, so the keyed sort below is a shuffle). -/
abbrev keyLess (seed : ℕ) (a b : ℕ) : Prop :=
  lcg seed a < lcg seed b ∨ (lcg seed a = lcg seed b ∧ a ≤ b)

/-- Modelled from the spec: the deterministic fixed-seed shuffle of the
indices `0..n-1` used by the split — sort the indices by their
pseudo-random key, a permutation of `range n` determined entirely by the
seed. -/
def permOfSeed (seed n : ℕ) : List ℕ :=
  List.insertionSort (keyLess seed) (List.range n)

/-- Number of test examples: `ceil(n · test_size)`, as sklearn computes it
for a fractional `test_size`; computed on the rational's raw numerator and
denominator so that it evaluates (`n_test_eq_ceil` below shows it is the
ceiling of `n · test_size` for a nonnegative `test_size`). -/
def n_test (n : ℕ) (test_size : ℚ) : ℕ :=
  (n * test_size.num.toNat + test_size.den - 1) / test_size.den

/-- Indices of the test subset: the first `n_test` shuffled indices. -/
def test_indices (seed : ℕ) (test_size : ℚ) (n : ℕ) : List ℕ :=
  (permOfSeed seed n).take (n_test n test_size)

/-- Indices of the train subset: the remaining shuffled indices. -/
def train_indices (seed : ℕ) (test_size : ℚ) (n : ℕ) : List ℕ :=
  (permOfSeed seed n).drop (n_test n test_size)

/-- Select the rows of `l` at the given indices, in order. -/
def select {α : Type} (l : List α) (idx : List ℕ) : List α :=
  idx.filterMap fun i => l[i]?

/-- Result of `train_test_split`: the four arrays it returns. -/
structure SplitResult (α : Type) where
  X_train : List α
  X_test : List α
  y_train : List α
  y_test : List α

/-- Embedding of `train_test_split(X, y, test_size, random_state)`: one shuffled index
permutation (a function of the seed alone) is split into test/train index
blocks and applied to `X` and `y` alike. -/
def train_test_split {α : Type} (X y : List α) (test_size : ℚ) (seed : ℕ) :
    SplitResult α :=
  { X_train := select X (train_indices seed test_size X.length)
    X_test := select X (test_indices seed test_size X.length)
    y_train := select y (train_indices seed test_size X.length)
    y_test := select y (test_indices seed test_size X.length) }

/-! ## Forecast models (shape-level embedding; the training engine's
gradient machinery is an external collaborator) -/

/-- Modelled from the spec: the engine's `Dense(units)` layer — an affine
map producing `units` outputs from an input row, with kernel `W` and
bias `b`. -/
def dense (units : ℕ) (W : ℕ → ℕ → ℚ) (b : ℕ → ℚ) (v : List ℚ) : List ℚ :=
  (List.range units).map fun j =>
    b j + ((List.range v.length).map fun i => v.getD i 0 * W i j).sum

/-- Modelled from the spec: the engine's hard-sigmoid gate activation,
`max 0 (min 1 (0.2·q + 0.5))` — an executable rational stand-in for the
recurrent gate squashing. -/
def hardSigmoid (q : ℚ) : ℚ := max 0 (min 1 (q / 5 + 1 / 2))

/-- Trainable coefficients of the LSTM layer: input kernels, recurrent
kernels and biases for the input, forget, candidate and output gates. -/
structure LSTMWeights where
  Wi : ℕ → ℕ → ℚ
  Wf : ℕ → ℕ → ℚ
  Wg : ℕ → ℕ → ℚ
  Wo : ℕ → ℕ → ℚ
  Ui : ℕ → ℕ → ℚ
  Uf : ℕ → ℕ → ℚ
  Ug : ℕ → ℕ → ℚ
  Uo : ℕ → ℕ → ℚ
  bi : ℕ → ℚ
  bf : ℕ → ℚ
  bg : ℕ → ℚ
  bo : ℕ → ℚ

/-- Modelled from the spec: one step of the engine's LSTM cell with
`units` units on hidden/carry state `(h, c)`; the notebook passes
`activation=None`, so the candidate and output transformations are the
identity while the gates keep their sigmoid squashing. -/
def lstmCell (units : ℕ) (w : LSTMWeights) (x : List ℚ) (hc : List ℚ × List ℚ) :
    List ℚ × List ℚ :=
  let h := hc.1
  let c := hc.2
  let pre := fun (W U : ℕ → ℕ → ℚ) (b : ℕ → ℚ) (j : ℕ) =>
    b j + ((List.range x.length).map fun i => x.getD i 0 * W i j).sum
        + ((List.range units).map fun i => h.getD i 0 * U i j).sum
  let cNew := (List.range units).map fun j =>
    hardSigmoid (pre w.Wf w.Uf w.bf j) * c.getD j 0
      + hardSigmoid (pre w.Wi w.Ui w.bi j) * pre w.Wg w.Ug w.bg j
  let hNew := (List.range units).map fun j =>
    hardSigmoid (pre w.Wo w.Uo w.bo j) * cNew.getD j 0
  (hNew, cNew)

/-- The all-zero vector of length `n`. -/
def zeros (n : ℕ) : List ℚ := List.replicate n 0

/-- Modelled from the spec: the engine's (stateless) LSTM layer with
`units` units — fold the cell over the timestep sequence starting from a
fresh all-zero hidden/carry state on every call, returning the final
hidden state. -/
def lstmLayer (units : ℕ) (w : LSTMWeights) (seq : List (List ℚ)) : List ℚ :=
  (seq.foldl (fun hc x => lstmCell units w x hc) (zeros units, zeros units)).1

/-- Notebook model `baseline_model = Sequential([Dense(3)])` applied to one input row. -/
def baseline_model (W : ℕ → ℕ → ℚ) (b : ℕ → ℚ) (v : List ℚ) : List ℚ :=
  dense 3 W b v

/-- Notebook model `lstm_model = Sequential([LSTM(50, activation=None), Dense(3)])`
applied to one timestep sequence. -/
def lstm_model (w : LSTMWeights) (W : ℕ → ℕ → ℚ) (b : ℕ → ℚ)
    (seq : List (List ℚ)) : List ℚ :=
  dense 3 W b (lstmLayer 50 w seq)

/-- Embedding of `X.reshape(X.shape[0], 1, X.shape[1])`: each row becomes a length-1
timestep sequence. -/
def reshape1 (X : List (List ℚ)) : List (List (List ℚ)) :=
  X.map fun v => [v]

/-- Embedding of `baseline_model.predict(X_test)`: the baseline applied row by row. -/
def baseline_predictions (W : ℕ → ℕ → ℚ) (b : ℕ → ℚ) (X : List (List ℚ)) :
    List (List ℚ) :=
  X.map (baseline_model W b)

/-- Embedding of `lstm_model.predict(X_test.reshape(...))`: the LSTM model applied to
each reshaped row independently. -/
def lstm_predictions (w : LSTMWeights) (W : ℕ → ℕ → ℚ) (b : ℕ → ℚ)
    (X : List (List ℚ)) : List (List ℚ) :=
  (reshape1 X).map (lstm_model w W b)

/-! ## Training configuration handed to `compile` / `fit` -/

/-- Arguments of a Keras `compile` call. -/
structure CompileConfig where
  optimizer : String
  loss : String

/-- Arguments of a Keras `fit` call. -/
structure FitConfig where
  epochs : ℕ
  batch_size : ℕ
  validation_split : ℚ

/-- Notebook call `baseline_model.compile(optimizer='adam', loss='mean_absolute_error')`. -/
def baseline_compile : CompileConfig :=
  { optimizer := "adam", loss := "mean_absolute_error" }

/-- Notebook call `baseline_model.fit(..., epochs=50, batch_size=32, validation_split=0.2, ...)`. -/
def baseline_fit : FitConfig :=
  { epochs := 50, batch_size := 32, validation_split := 0.2 }

/-- Notebook call `lstm_model.compile(optimizer='adam', loss='mean_absolute_error')`. -/
def lstm_compile : CompileConfig :=
  { optimizer := "adam", loss := "mean_absolute_error" }

/-- Notebook call `lstm_model.fit(..., epochs=50, batch_size=32, validation_split=0.2, ...)`. -/
def lstm_fit : FitConfig :=
  { epochs := 50, batch_size := 32, validation_split := 0.2 }

/-! ## Helper lemmas -/

theorem permOfSeed_perm (seed n : ℕ) : (permOfSeed seed n).Perm (List.range n) :=
  List.perm_insertionSort _ _

theorem length_permOfSeed (seed n : ℕ) : (permOfSeed seed n).length = n := by
  rw [(permOfSeed_perm seed n).length_eq, List.length_range]

theorem mem_permOfSeed {seed n j : ℕ} (h : j ∈ permOfSeed seed n) : j < n := by
  have := (permOfSeed_perm seed n).mem_iff.mp h
  exact List.mem_range.mp this

theorem nodup_permOfSeed (seed n : ℕ) : (permOfSeed seed n).Nodup :=
  ((permOfSeed_perm seed n).nodup_iff).mpr (List.nodup_range n)

theorem mem_train_indices {seed j n : ℕ} {ts : ℚ}
    (h : j ∈ train_indices seed ts n) : j < n :=
  mem_permOfSeed (List.mem_of_mem_drop h)

theorem mem_test_indices {seed j n : ℕ} {ts : ℚ}
    (h : j ∈ test_indices seed ts n) : j < n :=
  mem_permOfSeed (List.mem_of_mem_take h)

theorem length_select {α : Type} (l : List α) (idx : List ℕ)
    (h : ∀ j ∈ idx, j < l.length) : (select l idx).length = idx.length := by
  induction idx with
  | nil => rfl
  | cons j rest ih =>
    have hj : j < l.length := h j (by simp)
    have hsome : l[j]? = some (l.get ⟨j, hj⟩) := List.getElem?_eq_getElem hj
    have hrest : ∀ m ∈ rest, m < l.length := fun m hm => h m (by simp [hm])
    simp [select, List.filterMap_cons, hsome]
    simpa [select] using ih hrest

theorem select_getElem? {α : Type} (l : List α) (idx : List ℕ)
    (h : ∀ j ∈ idx, j < l.length) (k : ℕ) :
    (select l idx)[k]? = idx[k]?.bind fun j => l[j]? := by
  induction idx generalizing k with
  | nil => simp [select]
  | cons j rest ih =>
    have hj : j < l.length := h j (by simp)
    have hsome : l[j]? = some (l.get ⟨j, hj⟩) := List.getElem?_eq_getElem hj
    have hrest : ∀ m ∈ rest, m < l.length := fun m hm => h m (by simp [hm])
    cases k with
    | zero => simp [select, List.filterMap_cons, hsome]
    | succ k =>
      simp only [select, List.filterMap_cons, hsome, List.getElem?_cons_succ]
      simpa [select] using ih hrest k

theorem select_append {α : Type} (l : List α) (idx idx' : List ℕ) :
    select l (idx ++ idx') = select l idx ++ select l idx' := by
  simp [select, List.filterMap_append]

theorem select_range {α : Type} (l : List α) :
    select l (List.range l.length) = l := by
  induction l with
  | nil => rfl
  | cons a t ih =>
    rw [List.length_cons, List.range_succ_eq_map]
    simp only [select, List.filterMap_cons, List.getElem?_cons_zero]
    rw [List.filterMap_map]
    have : (fun i => (a :: t)[i]?) ∘ Nat.succ = fun i => t[i]? := by
      funext i
      simp [Function.comp]
    rw [this]
    simpa [select] using congrArg (a :: ·) ih

theorem n_test_eq_ceil (n : ℕ) (ts : ℚ) (h : 0 ≤ ts) :
    (n_test n ts : ℤ) = Int.ceil ((n : ℚ) * ts) := by
  have hd : 0 < ts.den := ts.den_pos
  have hdq : (0 : ℚ) < (ts.den : ℚ) := by exact_mod_cast hd
  have hnumZ : ((ts.num.toNat : ℕ) : ℤ) = ts.num :=
    Int.toNat_of_nonneg (Rat.num_nonneg.mpr h)
  have hnumQ : ((ts.num.toNat : ℕ) : ℚ) = (ts.num : ℚ) := by
    exact_mod_cast congrArg (fun z : ℤ => (z : ℚ)) hnumZ
  have hq : (n : ℚ) * ts = ((n * ts.num.toNat : ℕ) : ℚ) / (ts.den : ℚ) := by
    rw [eq_div_iff (ne_of_gt hdq)]
    push_cast [hnumQ]
    rw [mul_assoc, Rat.mul_den_eq_num]
  set N : ℕ := n * ts.num.toNat with hN
  have hm : n_test n ts = (N + ts.den - 1) / ts.den := rfl
  rw [hq]
  rcases Nat.eq_zero_or_pos N with h0 | hpos
  · rw [hm, h0]
    simp [Nat.div_eq_of_lt (Nat.sub_lt hd Nat.one_pos)]
  · have hm1 : n_test n ts = (N - 1) / ts.den + 1 := by
      rw [hm, show N + ts.den - 1 = (N - 1) + ts.den by omega,
        Nat.add_div_right _ hd]
    set k : ℕ := (N - 1) / ts.den with hk
    have hk1 : k * ts.den < N := by
      have h1 : k * ts.den ≤ N - 1 := Nat.div_mul_le_self _ _
      omega
    have hk2 : N ≤ (k + 1) * ts.den := by
      have h2 : N - 1 < (k + 1) * ts.den :=
        (Nat.div_lt_iff_lt_mul hd).mp (Nat.lt_succ_self k)
      omega
    symm
    rw [Int.ceil_eq_iff, hm1]
    constructor
    · push_cast
      rw [show ((k : ℚ) + 1 - 1) = (k : ℚ) by ring, lt_div_iff₀ hdq]
      exact_mod_cast hk1
    · push_cast
      rw [div_le_iff₀ hdq]
      exact_mod_cast hk2

theorem length_dense (u : ℕ) (W : ℕ → ℕ → ℚ) (b : ℕ → ℚ) (v : List ℚ) :
    (dense u W b v).length = u := by
  simp [dense]

theorem length_lstmCell_fst (u : ℕ) (w : LSTMWeights) (x : List ℚ)
    (hc : List ℚ × List ℚ) : ((lstmCell u w x hc).1).length = u := by
  simp [lstmCell]

theorem length_lstmLayer (u : ℕ) (w : LSTMWeights) (seq : List (List ℚ)) :
    (lstmLayer u w seq).length = u := by
  have main : ∀ (s : List (List ℚ)) (hc : List ℚ × List ℚ), hc.1.length = u →
      ((s.foldl (fun hc x => lstmCell u w x hc) hc).1).length = u := by
    intro s
    induction s with
    | nil => intro hc h; exact h
    | cons x rest ih =>
      intro hc h
      exact ih _ (length_lstmCell_fst u w x hc)
  exact main seq (zeros u, zeros u) (by simp [zeros])

theorem length_test_indices (seed : ℕ) (ts : ℚ) (n : ℕ) :
    (test_indices seed ts n).length = min (n_test n ts) n := by
  rw [test_indices, List.length_take, length_permOfSeed]

theorem length_train_indices (seed : ℕ) (ts : ℚ) (n : ℕ) :
    (train_indices seed ts n).length = n - n_test n ts := by
  rw [train_indices, List.length_drop, length_permOfSeed]

theorem length_X_train {α : Type} (X y : List α) (ts : ℚ) (seed : ℕ) :
    (train_test_split X y ts seed).X_train.length = X.length - n_test X.length ts := by
  rw [train_test_split]
  rw [length_select _ _ fun j hj => mem_train_indices hj, length_train_indices]

theorem length_X_test {α : Type} (X y : List α) (ts : ℚ) (seed : ℕ) :
    (train_test_split X y ts seed).X_test.length = min (n_test X.length ts) X.length := by
  rw [train_test_split]
  rw [length_select _ _ fun j hj => mem_test_indices hj, length_test_indices]

theorem length_y_train {α : Type} (X y : List α) (ts : ℚ) (seed : ℕ)
    (h : y.length = X.length) :
    (train_test_split X y ts seed).y_train.length = X.length - n_test X.length ts := by
  rw [train_test_split]
  rw [length_select _ _ fun j hj => h ▸ mem_train_indices hj, length_train_indices]

theorem length_y_test {α : Type} (X y : List α) (ts : ℚ) (seed : ℕ)
    (h : y.length = X.length) :
    (train_test_split X y ts seed).y_test.length = min (n_test X.length ts) X.length := by
  rw [train_test_split]
  rw [length_select _ _ fun j hj => h ▸ mem_test_indices hj, length_test_indices]

theorem test_append_train_perm_range (seed : ℕ) (ts : ℚ) (n : ℕ) :
    (test_indices seed ts n ++ train_indices seed ts n).Perm (List.range n) := by
  rw [test_indices, train_indices, List.take_append_drop]
  exact permOfSeed_perm seed n

theorem train_append_test_perm_range (seed : ℕ) (ts : ℚ) (n : ℕ) :
    (train_indices seed ts n ++ test_indices seed ts n).Perm (List.range n) :=
  List.perm_append_comm.trans (test_append_train_perm_range seed ts n)

theorem select_perm_of_length {α : Type} (l : List α)
    (idx : List ℕ) (hp : idx.Perm (List.range l.length)) :
    (select l idx).Perm l := by
  have h1 : (select l idx).Perm (select l (List.range l.length)) :=
    hp.filterMap fun i => l[i]?
  rw [select_range] at h1
  exact h1

theorem t_eval_getD (i : ℕ) (h : i < 1000) :
    t_eval.getD i 0 = 100 * (i : ℚ) / 999 := by
  rw [t_eval, linspace, List.getD_eq_getElem?_getD, List.getElem?_map,
    List.getElem?_range h]
  norm_num

/-! ## Claim theorems -/

/-- C1: for every state (x, y, z) and the parameter values σ, β, ρ in
scope, the vector field `lorenz` returns exactly the 3-element derivative
vector [σ·(y−x), x·(ρ−z)−y, x·y−β·z], in that order. -/
theorem lorenz_returns_derivative_vector (t x y z : ℚ) :
    lorenz t (x, y, z) = [sigma * (y - x), x * (rho - z) - y, x * y - beta * z] :=
  rfl

/-- C8: for all parameter triples (σ, β, ρ) and all states, the vector
field's output has dimension exactly 3, and evaluating it twice with
identical inputs (and identical global parameter values) yields identical
outputs. -/
theorem lorenz_dimension_and_purity (s b r t : ℚ) (st : ℚ × ℚ × ℚ) :
    (lorenzWith s b r t st).length = 3 ∧
    lorenzWith s b r t st = lorenzWith s b r t st ∧
    (lorenz t st).length = 3 ∧
    lorenz t st = lorenz t st :=
  ⟨rfl, rfl, rfl, rfl⟩

/-- C9: the vector field `lorenz` ignores its time argument: for every
state and all times t1, t2, `lorenz t1 s = lorenz t2 s`. -/
theorem lorenz_autonomous (t1 t2 : ℚ) (st : ℚ × ℚ × ℚ) :
    lorenz t1 st = lorenz t2 st :=
  rfl

/-- C6: both models are trained with mean absolute error loss, the same
fixed optimizer, exactly 50 epochs, batch size 32, and a 0.2 validation
hold-out fraction. -/
theorem training_configuration :
    baseline_compile.loss = "mean_absolute_error" ∧
    lstm_compile.loss = "mean_absolute_error" ∧
    baseline_compile.optimizer = "adam" ∧
    lstm_compile.optimizer = baseline_compile.optimizer ∧
    baseline_fit.epochs = 50 ∧ lstm_fit.epochs = 50 ∧
    baseline_fit.batch_size = 32 ∧ lstm_fit.batch_size = 32 ∧
    baseline_fit.validation_split = 0.2 ∧ lstm_fit.validation_split = 0.2 :=
  ⟨rfl, rfl, rfl, rfl, rfl, rfl, rfl, rfl, rfl, rfl⟩

/-- C2 counterexample: the β coefficient supplied to the vector field is
the decimal 2.667, not the exact rational 8/3, refuting the claim as
stated. -/
theorem beta_is_not_exactly_eight_thirds : beta ≠ 8 / 3 := by
  rw [beta]
  norm_num

/-- C2 (amended): the simulation parameters are σ=10, β=2.667 (the code's
decimal approximation 2667/1000 of 8/3), ρ=28, initial state (0, 1, 1.05),
time span [0, 100], and 1000 evenly spaced evaluation times running from 0
to 100 with constant spacing 100/999. -/
theorem simulation_configuration :
    sigma = 10 ∧ beta = 2667 / 1000 ∧ rho = 28 ∧
    initial_state = [0, 1, 1.05] ∧ t_span = [0, 100] ∧
    t_eval.length = 1000 ∧
    t_eval.getD 0 0 = 0 ∧ t_eval.getD 999 0 = 100 ∧
    (∀ i, i + 1 < 1000 →
      t_eval.getD (i + 1) 0 - t_eval.getD i 0 = 100 / 999) := by
  refine ⟨rfl, by rw [beta]; norm_num, rfl, rfl, rfl,
    by simp [t_eval, linspace], ?_, ?_, ?_⟩
  · rw [t_eval_getD 0 (by norm_num)]
    norm_num
  · rw [t_eval_getD 999 (by norm_num)]
    norm_num
  · intro i hi
    rw [t_eval_getD (i + 1) (by omega), t_eval_getD i (by omega)]
    push_cast
    rw [div_sub_div_same, show (100 : ℚ) * ((i : ℚ) + 1) - 100 * (i : ℚ) = 100 by ring]

theorem simulation_configuration_witness :
    0 + 1 < 1000 ∧ t_eval.getD (0 + 1) 0 - t_eval.getD 0 0 = 100 / 999 :=
  ⟨by decide, simulation_configuration.2.2.2.2.2.2.2.2 0 (by decide)⟩

/-- C3: for a trajectory of length N ≥ 2 the dataset builder produces
exactly N−1 examples; example i pairs sample i with sample i+1, and the
label of example i equals the input of example i+1. -/
theorem build_examples_adjacent_pairs {α : Type} (data : List α)
    (h : 2 ≤ data.length) :
    (build_examples data).length = data.length - 1 ∧
    (∀ i (z : α × α), (build_examples data)[i]? = some z ↔
      (data[i]? = some z.1 ∧ data[i + 1]? = some z.2)) ∧
    (∀ i (z w : α × α), (build_examples data)[i]? = some z →
      (build_examples data)[i + 1]? = some w → z.2 = w.1) := by
  have key : ∀ i (z : α × α), (build_examples data)[i]? = some z ↔
      (data[i]? = some z.1 ∧ data[i + 1]? = some z.2) := by
    intro i z
    rw [build_examples, List.getElem?_zip_eq_some, List.getElem?_dropLast,
      List.getElem?_tail]
    by_cases hlt : i < data.length - 1
    · rw [if_pos hlt]
    · rw [if_neg hlt]
      constructor
      · rintro ⟨h1, -⟩
        cases h1
      · rintro ⟨-, h2⟩
        obtain ⟨h3, -⟩ := List.getElem?_eq_some_iff.mp h2
        omega
  refine ⟨?_, key, ?_⟩
  · simp [build_examples]
  · intro i z w hz hw
    exact Option.some.inj (((key i z).mp hz).2.symm.trans ((key (i + 1) w).mp hw).1)

theorem build_examples_adjacent_pairs_witness :
    2 ≤ ([10, 20, 30] : List ℕ).length ∧
    (build_examples ([10, 20, 30] : List ℕ)).length = ([10, 20, 30] : List ℕ).length - 1 :=
  ⟨by decide, (build_examples_adjacent_pairs [10, 20, 30] (by decide)).1⟩

/-- C4: the split partitions the supervised examples: sizes add up to the
total, train ++ test is a permutation of the inputs (every example lands
in exactly one subset, witnessed by the index permutation), the index
blocks are disjoint, and the split is a pure function of its arguments, so
repeating it with the same seed yields an identical partition. -/
theorem split_is_partition {α : Type} (X y : List α) (ts : ℚ) (seed : ℕ)
    (h : y.length = X.length) :
    (train_test_split X y ts seed).X_train.length
      + (train_test_split X y ts seed).X_test.length = X.length ∧
    ((train_test_split X y ts seed).X_train
      ++ (train_test_split X y ts seed).X_test).Perm X ∧
    ((train_test_split X y ts seed).y_train
      ++ (train_test_split X y ts seed).y_test).Perm y ∧
    (train_indices seed ts X.length ++ test_indices seed ts X.length).Perm
      (List.range X.length) ∧
    (train_indices seed ts X.length).Disjoint (test_indices seed ts X.length) ∧
    train_test_split X y ts seed = train_test_split X y ts seed := by
  refine ⟨?_, ?_, ?_, train_append_test_perm_range seed ts X.length, ?_, rfl⟩
  · rw [length_X_train, length_X_test]
    omega
  · simp only [train_test_split]
    rw [← select_append]
    exact select_perm_of_length X _ (train_append_test_perm_range seed ts X.length)
  · simp only [train_test_split]
    rw [← select_append]
    refine select_perm_of_length y _ ?_
    rw [h]
    exact train_append_test_perm_range seed ts X.length
  · have hd := List.disjoint_take_drop (nodup_permOfSeed seed X.length)
      (le_refl (n_test X.length ts))
    intro a ha hb
    exact hd hb ha

theorem split_is_partition_witness :
    ([6, 7, 8, 9, 10] : List ℕ).length = ([1, 2, 3, 4, 5] : List ℕ).length ∧
    (train_test_split ([1, 2, 3, 4, 5] : List ℕ) [6, 7, 8, 9, 10] (1 / 5) 42).X_train.length
      + (train_test_split ([1, 2, 3, 4, 5] : List ℕ) [6, 7, 8, 9, 10] (1 / 5) 42).X_test.length
      = ([1, 2, 3, 4, 5] : List ℕ).length :=
  ⟨rfl, (split_is_partition [1, 2, 3, 4, 5] [6, 7, 8, 9, 10] (1 / 5) 42 rfl).1⟩

theorem point_two_num_den : (0.2 : ℚ) = (⟨1, 5, by decide, by decide⟩ : ℚ) := by
  rw [Rat.mk'_eq_divInt, Rat.divInt_eq_div]
  norm_num

theorem n_test_999_point_two : n_test 999 (0.2 : ℚ) = 200 := by
  rw [point_two_num_den]
  rfl

/-- C5: a trajectory of length 1000 yields 999 supervised examples, the
80/20 split with the fixed seed yields 799 training and 200 test examples,
and both models produce a (200, 3) prediction array on the test inputs. -/
theorem end_to_end_shapes (data : List (List ℚ)) (h : data.length = 1000)
    (Wb : ℕ → ℕ → ℚ) (bb : ℕ → ℚ) (w : LSTMWeights) (Wl : ℕ → ℕ → ℚ)
    (bl : ℕ → ℚ) :
    (build_examples data).length = 999 ∧
    (train_test_split data.dropLast data.tail 0.2 42).X_train.length = 799 ∧
    (train_test_split data.dropLast data.tail 0.2 42).X_test.length = 200 ∧
    (train_test_split data.dropLast data.tail 0.2 42).y_train.length = 799 ∧
    (train_test_split data.dropLast data.tail 0.2 42).y_test.length = 200 ∧
    (baseline_predictions Wb bb
      (train_test_split data.dropLast data.tail 0.2 42).X_test).length = 200 ∧
    (∀ row ∈ baseline_predictions Wb bb
      (train_test_split data.dropLast data.tail 0.2 42).X_test, row.length = 3) ∧
    (lstm_predictions w Wl bl
      (train_test_split data.dropLast data.tail 0.2 42).X_test).length = 200 ∧
    (∀ row ∈ lstm_predictions w Wl bl
      (train_test_split data.dropLast data.tail 0.2 42).X_test, row.length = 3) := by
  have hX : data.dropLast.length = 999 := by simp [h]
  have hy : data.tail.length = data.dropLast.length := by simp [h]
  have hnt : n_test data.dropLast.length (0.2 : ℚ) = 200 := by
    rw [hX]
    exact n_test_999_point_two
  have hXte : (train_test_split data.dropLast data.tail 0.2 42).X_test.length = 200 := by
    rw [length_X_test, hnt, hX]
    omega
  refine ⟨by simp [build_examples, h], ?_, hXte, ?_, ?_, ?_, ?_, ?_, ?_⟩
  · rw [length_X_train, hnt, hX]
  · rw [length_y_train _ _ _ _ hy, hnt, hX]
  · rw [length_y_test _ _ _ _ hy, hnt, hX]
    omega
  · rw [baseline_predictions, List.length_map, hXte]
  · intro row hrow
    obtain ⟨v, -, rfl⟩ := List.mem_map.mp hrow
    exact length_dense 3 Wb bb v
  · rw [lstm_predictions, List.length_map, reshape1, List.length_map, hXte]
  · intro row hrow
    obtain ⟨s, -, rfl⟩ := List.mem_map.mp hrow
    exact length_dense 3 Wl bl _

theorem end_to_end_shapes_witness :
    (List.replicate 1000 ([0] : List ℚ)).length = 1000 ∧
    (build_examples (List.replicate 1000 ([0] : List ℚ))).length = 999 :=
  ⟨List.length_replicate 1000 [0],
   (end_to_end_shapes (List.replicate 1000 ([0] : List ℚ))
      (List.length_replicate 1000 [0])
      (fun _ _ => 0) (fun _ => 0)
      ⟨fun _ _ => 0, fun _ _ => 0, fun _ _ => 0, fun _ _ => 0,
       fun _ _ => 0, fun _ _ => 0, fun _ _ => 0, fun _ _ => 0,
       fun _ => 0, fun _ => 0, fun _ => 0, fun _ => 0⟩
      (fun _ _ => 0) (fun _ => 0)).1⟩

/-- C7: the recurrent model consumes each input reshaped to a length-1
timestep sequence, its recurrent layer has 50 units, its output is a
3-number next state, and prediction is per-example: each output depends
only on its own input row, with the layer state freshly zeroed on every
call. -/
theorem lstm_model_single_step (w : LSTMWeights) (W : ℕ → ℕ → ℚ) (b : ℕ → ℚ)
    (X : List (List ℚ)) (seq : List (List ℚ)) (i : ℕ) :
    (reshape1 X).length = X.length ∧
    (reshape1 X)[i]? = X[i]?.map (fun v => [v]) ∧
    (lstmLayer 50 w seq).length = 50 ∧
    (lstm_model w W b seq).length = 3 ∧
    (lstm_predictions w W b X)[i]? =
      X[i]?.map fun v => dense 3 W b ((lstmCell 50 w v (zeros 50, zeros 50)).1) := by
  refine ⟨by simp [reshape1], by simp [reshape1], length_lstmLayer 50 w seq,
    length_dense 3 W b _, ?_⟩
  rw [lstm_predictions, reshape1, List.getElem?_map, List.getElem?_map,
    Option.map_map]
  rfl

/-- Shared adjacency argument for C10: selecting rows of `data[:-1]` and
`data[1:]` at the same index list pairs each selected input with its
immediate successor in `data`. -/
theorem select_shifted_pairs {α : Type} (data : List α) (idx : List ℕ)
    (hv : ∀ j ∈ idx, j < data.dropLast.length) (i : ℕ)
    (hi : i < (select data.dropLast idx).length) :
    ∃ k, k + 1 < data.length ∧
      (select data.dropLast idx)[i]? = data[k]? ∧
      (select data.tail idx)[i]? = data[k + 1]? := by
  have hi' : i < idx.length := by
    rw [length_select _ _ hv] at hi
    exact hi
  have hk : idx[i]? = some idx[i] := List.getElem?_eq_getElem hi'
  have hkmem : idx[i] ∈ idx := List.getElem?_mem hk
  have hklt : idx[i] < data.dropLast.length := hv _ hkmem
  rw [List.length_dropLast] at hklt
  have hv' : ∀ j ∈ idx, j < data.tail.length := by
    intro j hj
    rw [List.length_tail]
    have := hv j hj
    rw [List.length_dropLast] at this
    exact this
  refine ⟨idx[i], by omega, ?_, ?_⟩
  · rw [select_getElem? _ _ hv i, hk, Option.some_bind, List.getElem?_dropLast,
      if_pos hklt]
  · rw [select_getElem? _ _ hv' i, hk, Option.some_bind, List.getElem?_tail]

/-- C10: the shuffle permutes inputs and labels with the same permutation,
so every post-split (input, label) pair — train or test — is a
trajectory-adjacent pair (data[k], data[k+1]). -/
theorem split_preserves_adjacency {α : Type} (data : List α) (ts : ℚ) (seed : ℕ) :
    (∀ i, i < (train_test_split data.dropLast data.tail ts seed).X_train.length →
      ∃ k, k + 1 < data.length ∧
        (train_test_split data.dropLast data.tail ts seed).X_train[i]? = data[k]? ∧
        (train_test_split data.dropLast data.tail ts seed).y_train[i]? = data[k + 1]?) ∧
    (∀ i, i < (train_test_split data.dropLast data.tail ts seed).X_test.length →
      ∃ k, k + 1 < data.length ∧
        (train_test_split data.dropLast data.tail ts seed).X_test[i]? = data[k]? ∧
        (train_test_split data.dropLast data.tail ts seed).y_test[i]? = data[k + 1]?) := by
  constructor
  · intro i hi
    exact select_shifted_pairs data _ (fun j hj => mem_train_indices hj) i hi
  · intro i hi
    exact select_shifted_pairs data _ (fun j hj => mem_test_indices hj) i hi

theorem split_preserves_adjacency_witness :
    0 < (train_test_split ([1, 2, 3, 4, 5] : List ℕ).dropLast
          ([1, 2, 3, 4, 5] : List ℕ).tail
          (⟨1, 5, by decide, by decide⟩ : ℚ) 42).X_train.length ∧
    (∃ k, k + 1 < ([1, 2, 3, 4, 5] : List ℕ).length ∧
      (train_test_split ([1, 2, 3, 4, 5] : List ℕ).dropLast
        ([1, 2, 3, 4, 5] : List ℕ).tail
        (⟨1, 5, by decide, by decide⟩ : ℚ) 42).X_train[0]?
        = ([1, 2, 3, 4, 5] : List ℕ)[k]? ∧
      (train_test_split ([1, 2, 3, 4, 5] : List ℕ).dropLast
        ([1, 2, 3, 4, 5] : List ℕ).tail
        (⟨1, 5, by decide, by decide⟩ : ℚ) 42).y_train[0]?
        = ([1, 2, 3, 4, 5] : List ℕ)[k + 1]?) :=
  ⟨by decide,
   (split_preserves_adjacency [1, 2, 3, 4, 5]
      (⟨1, 5, by decide, by decide⟩ : ℚ) 42).1 0 (by decide)⟩

end LorenzPred
